import Mathlib

/-!
Shallow embedding of the gameboy emulator core (src/cpu/registers.rs,
src/cpu/instructions.rs, src/cpu/mod.rs, src/memory.rs, src/io/timers.rs,
src/io/joypad.rs, src/cartridge/header.rs).

Machine integers are modelled as `Nat` kept in range by explicit masks:
`wrap8`/`wrap16` are the Rust release-profile wrapping casts/overflow
semantics (`as u8`, `as u16`, wrapping `+`/`-`).  A Rust `panic!` /
`todo!` / `unimplemented!` / `unreachable!` / out-of-bounds index is
modelled by `Option.none` (or a dedicated error constructor for the
header parser).
-/

/-- Truncation to 8 bits: Rust `as u8` and release-profile u8 wrap-around. -/
def wrap8 (n : Nat) : Nat := n % 256

/-- Truncation to 16 bits: Rust `as u16` and release-profile u16 wrap-around. -/
def wrap16 (n : Nat) : Nat := n % 65536

/-- Release-profile wrapping subtraction on u8 (both operands below 256). -/
def sub8 (a b : Nat) : Nat := (a + 256 - b) % 256

/-- Release-profile wrapping subtraction on u16 (both operands below 65536). -/
def sub16 (a b : Nat) : Nat := (a + 65536 - b) % 65536

/-- The four CPU flags (src/cpu/registers.rs, struct Flags). -/
structure Flags where
  zero : Bool
  subtract : Bool
  half_carry : Bool
  carry : Bool
deriving DecidableEq

/-- From u8 for Flags (src/cpu/registers.rs): unpack the top nibble. -/
def Flags.fromByte (value : Nat) : Flags :=
  { zero := (value &&& 0b10000000) != 0
    subtract := (value &&& 0b01000000) != 0
    half_carry := (value &&& 0b00100000) != 0
    carry := (value &&& 0b00010000) != 0 }

/-- From &Flags for u8 / flags_to_u8 (src/cpu/registers.rs): pack into the top nibble. -/
def flags_to_u8 (flags : Flags) : Nat :=
  ((if flags.zero then 1 else 0) <<< 7)
    ||| ((if flags.subtract then 1 else 0) <<< 6)
    ||| ((if flags.half_carry then 1 else 0) <<< 5)
    ||| ((if flags.carry then 1 else 0) <<< 4)

/-- The 8-bit register identities (src/cpu/instructions.rs, enum R8). -/
inductive R8 where
  | A | B | C | D | E | H | L
deriving DecidableEq

/-- The register-pair identities (src/cpu/instructions.rs, enum R16). -/
inductive R16 where
  | BC | DE | HL
deriving DecidableEq

/-- Upper half of a register pair (src/cpu/instructions.rs, R16::get_upper). -/
def R16.get_upper : R16 → R8
  | R16.BC => R8.B
  | R16.DE => R8.D
  | R16.HL => R8.H

/-- Lower half of a register pair (src/cpu/instructions.rs, R16::get_lower). -/
def R16.get_lower : R16 → R8
  | R16.BC => R8.C
  | R16.DE => R8.E
  | R16.HL => R8.L

/-- Branch conditions (src/cpu/instructions.rs, enum Condition). -/
inductive Condition where
  | Z | NZ | NC | C
deriving DecidableEq

/-- Restart vectors (src/cpu/instructions.rs, enum Vec). -/
inductive RstVec where
  | X00 | X08 | X10 | X18 | X20 | X28 | X30 | X38
deriving DecidableEq

/-- Restart vector value (src/cpu/instructions.rs, Vec::get). -/
def RstVec.get : RstVec → Nat
  | RstVec.X00 => 0x00
  | RstVec.X08 => 0x08
  | RstVec.X10 => 0x10
  | RstVec.X18 => 0x18
  | RstVec.X20 => 0x20
  | RstVec.X28 => 0x28
  | RstVec.X30 => 0x30
  | RstVec.X38 => 0x38

/-- Literal 3-bit indices (src/cpu/instructions.rs, enum U3). -/
inductive U3 where
  | Zero | One | Two | Three | Four | Five | Six | Seven
deriving DecidableEq

/-- Numeric value of a U3 (src/cpu/instructions.rs, U3::get). -/
def U3.get : U3 → Nat
  | U3.Zero => 0
  | U3.One => 1
  | U3.Two => 2
  | U3.Three => 3
  | U3.Four => 4
  | U3.Five => 5
  | U3.Six => 6
  | U3.Seven => 7

/-- The register file (src/cpu/registers.rs, struct Registers). -/
structure Registers where
  a : Nat
  b : Nat
  c : Nat
  d : Nat
  e : Nat
  f : Flags
  h : Nat
  l : Nat
  sp : Nat
  pc : Nat
deriving DecidableEq

/-- Power-on register file (src/cpu/registers.rs, Registers::new). -/
def Registers.new : Registers :=
  { a := 0, b := 0, c := 0, d := 0, e := 0
    f := { zero := false, subtract := false, half_carry := false, carry := false }
    h := 0, l := 0, sp := 0, pc := 0 }

/-- Registers::get_af — note the source combines the halves with `&`. -/
def Registers.get_af (r : Registers) : Nat :=
  ((r.a <<< 8) &&& flags_to_u8 r.f)

/-- Registers::set_af. -/
def Registers.set_af (r : Registers) (value : Nat) : Registers :=
  { r with a := wrap8 (value >>> 8), f := Flags.fromByte (value &&& 0xFF) }

/-- Registers::set_pc — the source computes `((upper << 4) | lower) as u16`
with `upper`/`lower` being u8, so the shift by 4 wraps in 8 bits. -/
def Registers.set_pc (r : Registers) (lower upper : Nat) : Registers :=
  { r with pc := (wrap8 (upper <<< 4)) ||| lower }

/-- Registers::get_bc — note the source combines the halves with `&`. -/
def Registers.get_bc (r : Registers) : Nat :=
  ((r.b <<< 8) &&& r.c)

/-- Registers::set_bc. -/
def Registers.set_bc (r : Registers) (value : Nat) : Registers :=
  { r with b := wrap8 (value >>> 8), c := value &&& 0xFF }

/-- Registers::get_de — note the source combines the halves with `&`. -/
def Registers.get_de (r : Registers) : Nat :=
  ((r.d <<< 8) &&& r.e)

/-- Registers::set_de. -/
def Registers.set_de (r : Registers) (value : Nat) : Registers :=
  { r with d := wrap8 (value >>> 8), e := value &&& 0xFF }

/-- Registers::get_hl — note the source combines the halves with `&`. -/
def Registers.get_hl (r : Registers) : Nat :=
  ((r.h <<< 8) &&& r.l)

/-- Registers::set_hl. -/
def Registers.set_hl (r : Registers) (value : Nat) : Registers :=
  { r with h := wrap8 (value >>> 8), l := value &&& 0xFF }

/-- Registers::get_r8. -/
def Registers.get_r8 (r : Registers) (register : R8) : Nat :=
  match register with
  | R8.A => r.a
  | R8.B => r.b
  | R8.C => r.c
  | R8.D => r.d
  | R8.E => r.e
  | R8.H => r.h
  | R8.L => r.l

/-- Registers::set_r8. -/
def Registers.set_r8 (r : Registers) (register : R8) (value : Nat) : Registers :=
  match register with
  | R8.A => { r with a := value }
  | R8.B => { r with b := value }
  | R8.C => { r with c := value }
  | R8.D => { r with d := value }
  | R8.E => { r with e := value }
  | R8.H => { r with h := value }
  | R8.L => { r with l := value }

/-- Registers::set_r16. -/
def Registers.set_r16 (r : Registers) (register : R16) (value : Nat) : Registers :=
  match register with
  | R16.BC => r.set_bc value
  | R16.DE => r.set_de value
  | R16.HL => r.set_hl value

/-- Registers::get_r16. -/
def Registers.get_r16 (r : Registers) (register : R16) : Nat :=
  match register with
  | R16.BC => r.get_bc
  | R16.DE => r.get_de
  | R16.HL => r.get_hl

/-- The joypad register (src/io/joypad.rs, struct Joypad). -/
structure Joypad where
  data : Nat
deriving DecidableEq

/-- Joypad::new. -/
def Joypad.new : Joypad := { data := 0x0F }

/-- Joypad::get — low nibble forced to read inactive (active-low). -/
def Joypad.get (j : Joypad) : Nat := j.data ||| 0xF

/-- Joypad::set — only the top nibble is retained. -/
def Joypad.set (j : Joypad) (data : Nat) : Joypad := { j with data := data &&& 0xF0 }

/-- The timer/divider subsystem state (src/io/timers.rs, struct Timers). -/
structure Timers where
  divider : Nat
  internal_divider : Nat
  timer_counter : Nat
  timer_modulo : Nat
  internal_timer : Nat
  timer_control : Nat
deriving DecidableEq

/-- Timers::new. -/
def Timers.new : Timers :=
  { divider := 0, internal_divider := 0, timer_counter := 0
    timer_modulo := 0, internal_timer := 0, timer_control := 0 }

/-- The divider while-loop of Timers::tick.  Each iteration evaluates
`self.divider.wrapping_add(1)` and DISCARDS the result (the source never
assigns it back), then subtracts 256 from the internal accumulator; so the
loop only drains the accumulator and the visible divider byte is untouched. -/
def div_loop (internal_divider : Nat) : Nat :=
  if internal_divider ≥ 256 then div_loop (internal_divider - 256) else internal_divider
termination_by internal_divider
decreasing_by omega

/-- Timer period selection of Timers::tick (`timer_control & 0b11`). -/
def timer_period (timer_control : Nat) : Nat :=
  match timer_control &&& 0b11 with
  | 0b00 => 1024
  | 0b01 => 16
  | 0b10 => 64
  | _ => 256

/-- The counter while-loop of Timers::tick: while the internal timer holds at
least one period, increment the counter (u8 wrap); on wrap to 0 reload it from
the modulo register and record an interrupt request.  Returns
(timer_counter, internal_timer, interrupt).  The source's period is always one
of 1024/16/64/256; the `0 < period` guard makes the recursion well-founded. -/
def timer_loop (period timer_counter timer_modulo internal_timer : Nat)
    (interrupt : Bool) : Nat × Nat × Bool :=
  if 0 < period ∧ internal_timer ≥ period then
    let counter1 := wrap8 (timer_counter + 1)
    let internal1 := internal_timer - period
    if counter1 = 0 then
      timer_loop period timer_modulo timer_modulo internal1 true
    else
      timer_loop period counter1 timer_modulo internal1 interrupt
  else (timer_counter, internal_timer, interrupt)
termination_by internal_timer
decreasing_by all_goals omega

/-- Timers::tick — returns the new state together with the interrupt request.
Note the divider increment in the source is a discarded `wrapping_add`. -/
def Timers.tick (t : Timers) (ticks : Nat) : Timers × Bool :=
  let internal_divider1 := div_loop (t.internal_divider + ticks)
  if t.timer_control &&& 0b100 = 0b100 then
    let internal_timer0 := t.internal_timer + ticks
    let r := timer_loop (timer_period t.timer_control) t.timer_counter
      t.timer_modulo internal_timer0 false
    ({ t with internal_divider := internal_divider1,
              timer_counter := r.1, internal_timer := r.2.1 }, r.2.2)
  else
    ({ t with internal_divider := internal_divider1 }, false)

/-- Timers::reset_div — zeroes the visible divider byte (and nothing else). -/
def Timers.reset_div (t : Timers) : Timers := { t with divider := 0 }

/-- Timers::get_divider. -/
def Timers.get_divider (t : Timers) : Nat := t.divider

/-- Timers::set_counter. -/
def Timers.set_counter (t : Timers) (byte : Nat) : Timers := { t with timer_counter := byte }

/-- Timers::get_counter. -/
def Timers.get_counter (t : Timers) : Nat := t.timer_counter

/-- Timers::set_tma. -/
def Timers.set_tma (t : Timers) (byte : Nat) : Timers := { t with timer_modulo := byte }

/-- Timers::get_tma. -/
def Timers.get_tma (t : Timers) : Nat := t.timer_modulo

/-- Timers::set_tac. -/
def Timers.set_tac (t : Timers) (byte : Nat) : Timers := { t with timer_control := byte }

/-- Timers::get_tac. -/
def Timers.get_tac (t : Timers) : Nat := t.timer_control

/-- The address space (src/memory.rs, struct Memory).  The fixed-size byte
arrays are modelled as total functions from the in-range offset to the byte;
the cartridge ROM is a Vec, so it keeps its length and indexing can fail. -/
structure Memory where
  rom : List Nat
  video_ram : Nat → Nat
  ext_ram : Nat → Nat
  work_ram : Nat → Nat
  oam : Nat → Nat
  high_ram : Nat → Nat
  joypad : Joypad
  timers : Timers
  interrupt_flag : Nat
  interrupt_enable : Nat

/-- Memory::new. -/
def Memory.new (rom : List Nat) : Memory :=
  { rom := rom
    video_ram := fun _ => 0
    ext_ram := fun _ => 0
    work_ram := fun _ => 0
    oam := fun _ => 0
    high_ram := fun _ => 0
    joypad := Joypad.new
    timers := Timers.new
    interrupt_flag := 0
    interrupt_enable := 0 }

/-- Memory::read_io.  `none` stands for a panic: the source has `todo!()` at
0xFF01/0xFF02 and the sound range 0xFF10–0xFF3F, `unimplemented!()` at 0xFF03
and 0xFF08–0xFF0E, and no match arm at all for 0xFF40–0xFF4E and
0xFF78–0xFF7F. -/
def Memory.read_io (m : Memory) (address : Nat) : Option Nat :=
  if address = 0xFF00 then some m.joypad.get
  else if address = 0xFF01 then none
  else if address = 0xFF02 then none
  else if address = 0xFF03 then none
  else if address = 0xFF04 then some m.timers.get_divider
  else if address = 0xFF05 then some m.timers.get_counter
  else if address = 0xFF06 then some m.timers.get_tma
  else if address = 0xFF07 then some m.timers.get_tac
  else if 0xFF08 ≤ address ∧ address ≤ 0xFF0E then none
  else if address = 0xFF0F then some m.interrupt_flag
  else if 0xFF10 ≤ address ∧ address ≤ 0xFF3F then none
  else if 0xFF4F ≤ address ∧ address ≤ 0xFF77 then some 0x0
  else none

/-- Memory::write_io, with the same panic policy as `Memory.read_io`. -/
def Memory.write_io (m : Memory) (address : Nat) (byte : Nat) : Option Memory :=
  if address = 0xFF00 then some { m with joypad := m.joypad.set byte }
  else if address = 0xFF01 then none
  else if address = 0xFF02 then none
  else if address = 0xFF03 then none
  else if address = 0xFF04 then some { m with timers := m.timers.reset_div }
  else if address = 0xFF05 then some { m with timers := m.timers.set_counter byte }
  else if address = 0xFF06 then some { m with timers := m.timers.set_tma byte }
  else if address = 0xFF07 then some { m with timers := m.timers.set_tac byte }
  else if 0xFF08 ≤ address ∧ address ≤ 0xFF0E then none
  else if address = 0xFF0F then some { m with interrupt_flag := byte }
  else if 0xFF10 ≤ address ∧ address ≤ 0xFF3F then none
  else if 0xFF4F ≤ address ∧ address ≤ 0xFF77 then some m
  else none

/-- Memory::read, dispatching on the region ranges of src/memory.rs.  The ROM
access `self.rom[address as usize]` panics (`none`) when the Vec is shorter
than the address. -/
def Memory.read (m : Memory) (address : Nat) : Option Nat :=
  if address ≤ 0x7FFF then m.rom[address]?
  else if address ≤ 0x9FFF then some (m.video_ram (address - 0x8000))
  else if address ≤ 0xBFFF then some (m.ext_ram (address - 0xA000))
  else if address ≤ 0xDFFF then some (m.work_ram (address - 0xC000))
  else if address ≤ 0xFDFF then some (m.work_ram (address - 0xE000))
  else if address ≤ 0xFE9F then some (m.oam (address - 0xFE00))
  else if address ≤ 0xFEFF then some 0x00
  else if address ≤ 0xFF7F then m.read_io address
  else if address ≤ 0xFFFE then some (m.high_ram (address - 0xFF80))
  else if address = 0xFFFF then some m.interrupt_enable
  else none

/-- Pointwise update of one of the byte-array regions. -/
def updFn (f : Nat → Nat) (i v : Nat) : Nat → Nat :=
  fun j => if j = i then v else f j

/-- Memory::write, dispatching on the region ranges of src/memory.rs. -/
def Memory.write (m : Memory) (address : Nat) (byte : Nat) : Option Memory :=
  if address ≤ 0x7FFF then
    if address < m.rom.length then some { m with rom := m.rom.set address byte } else none
  else if address ≤ 0x9FFF then
    some { m with video_ram := updFn m.video_ram (address - 0x8000) byte }
  else if address ≤ 0xBFFF then
    some { m with ext_ram := updFn m.ext_ram (address - 0xA000) byte }
  else if address ≤ 0xDFFF then
    some { m with work_ram := updFn m.work_ram (address - 0xC000) byte }
  else if address ≤ 0xFDFF then
    some { m with work_ram := updFn m.work_ram (address - 0xE000) byte }
  else if address ≤ 0xFE9F then
    some { m with oam := updFn m.oam (address - 0xFE00) byte }
  else if address ≤ 0xFEFF then some m
  else if address ≤ 0xFF7F then m.write_io address byte
  else if address ≤ 0xFFFE then
    some { m with high_ram := updFn m.high_ram (address - 0xFF80) byte }
  else if address = 0xFFFF then some { m with interrupt_enable := byte }
  else none

/-- The IME delay state machine (src/cpu/mod.rs, enum ImeState). -/
inductive ImeState where
  | UNSET
  | PENDING_NEW_INSTRUCTION
  | PENDING_INSTRUCTION_COMPLETION
  | SET
deriving DecidableEq

/-- The CPU state (src/cpu/mod.rs, struct Cpu). -/
structure Cpu where
  registers : Registers
  ime_state : ImeState
  low_power_mode : Bool
  very_low_power_mode : Bool
deriving DecidableEq

/-- Cpu::new — power-on state. -/
def Cpu.new : Cpu :=
  { registers := Registers.new
    ime_state := ImeState.UNSET
    low_power_mode := false
    very_low_power_mode := false }

/-- Cpu::add_a — flags are computed against the pre-assignment accumulator;
the carry-variant +1 can itself overflow and also sets carry. -/
def Cpu.add_a (cpu : Cpu) (rhs : Nat) (carry : Bool) : Cpu :=
  let a := cpu.registers.a
  let sum0 := wrap8 (a + rhs)
  let ov0 := decide (a + rhs > 0xFF)
  let sum := if carry then wrap8 (sum0 + 1) else sum0
  let ov := if carry then (ov0 || decide (sum0 + 1 > 0xFF)) else ov0
  { cpu with registers := { cpu.registers with
      a := sum
      f := { zero := decide (sum = 0)
             subtract := false
             half_carry := decide ((a &&& 0xF) + (rhs &&& 0xF) > 0xF)
             carry := ov } } }

/-- Cpu::add_hl. -/
def Cpu.add_hl (cpu : Cpu) (rhs : Nat) : Cpu :=
  let hl := cpu.registers.get_hl
  let sum := wrap16 (hl + rhs)
  let cpu1 := { cpu with registers := { cpu.registers with
      f := { cpu.registers.f with
             subtract := false
             half_carry := decide ((hl &&& 0xFFF) + (rhs &&& 0xFFF) > 0xFFF)
             carry := decide (hl + rhs > 0xFFFF) } } }
  { cpu1 with registers := cpu1.registers.set_hl sum }

/-- Two's-complement u16 image of an i8 (Rust `e8 as i16 as u16`). -/
def i8_as_u16 (e8 : Int) : Nat := (e8 % 65536).toNat

/-- Cpu::add_sp — only half-carry and carry are updated. -/
def Cpu.add_sp (cpu : Cpu) (rhs8 : Int) : Cpu :=
  let rhs := i8_as_u16 rhs8
  let sp := cpu.registers.sp
  let sum := wrap16 (sp + rhs)
  { cpu with registers := { cpu.registers with
      sp := sum
      f := { cpu.registers.f with
             half_carry := decide ((sp &&& 0xF) + (rhs &&& 0xF) > 0xF)
             carry := decide ((sp &&& 0xFF) + (rhs &&& 0xFF) > 0xFF) } } }

/-- Cpu::and. -/
def Cpu.and (cpu : Cpu) (rhs : Nat) : Cpu :=
  let a := cpu.registers.a &&& rhs
  { cpu with registers := { cpu.registers with
      a := a
      f := { zero := decide (a = 0), subtract := false
             half_carry := true, carry := false } } }

/-- Cpu::bit — the source assigns `zero = bit != 0`, i.e. zero is set when the
tested bit IS set; carry is untouched. -/
def Cpu.bit (cpu : Cpu) (u3 : U3) (byte : Nat) : Cpu :=
  let bit :=
    match u3 with
    | U3.Zero => byte &&& 0b1
    | U3.One => byte &&& 0b10
    | U3.Two => byte &&& 0b100
    | U3.Three => byte &&& 0b1000
    | U3.Four => byte &&& 0b10000
    | U3.Five => byte &&& 0b100000
    | U3.Six => byte &&& 0b1000000
    | U3.Seven => byte &&& 0b10000000
  { cpu with registers := { cpu.registers with
      f := { cpu.registers.f with
             zero := decide (bit ≠ 0)
             subtract := false
             half_carry := true } } }

/-- Cpu::jump. -/
def Cpu.jump (cpu : Cpu) (n16 : Nat) : Cpu :=
  { cpu with registers := { cpu.registers with pc := n16 } }

/-- Cpu::position_from_offset.  For a negative offset the source computes
`-offset as u16`: an i8 negation (which wraps for -128) followed by a
sign-extending cast, then a wrapping subtraction from the program counter. -/
def Cpu.position_from_offset (cpu : Cpu) (offset : Int) : Nat :=
  let position := cpu.registers.pc
  if offset > 0 then wrap16 (position + offset.toNat)
  else
    let negByte := ((-offset) % 256).toNat
    let cast_offset := if negByte ≥ 128 then 0xFF00 + negByte else negByte
    sub16 position cast_offset

/-- Cpu::check_condition. -/
def Cpu.check_condition (cpu : Cpu) (condition : Condition) : Bool :=
  match condition with
  | Condition.Z => cpu.registers.f.zero
  | Condition.NZ => !cpu.registers.f.zero
  | Condition.C => cpu.registers.f.carry
  | Condition.NC => !cpu.registers.f.carry

/-- Cpu::cp — compare: subtract without storing, flags only. -/
def Cpu.cp (cpu : Cpu) (subtrahend : Nat) : Cpu :=
  let result := sub8 cpu.registers.a subtrahend
  { cpu with registers := { cpu.registers with
      f := { zero := decide (result = 0)
             subtract := true
             half_carry := decide (cpu.registers.a &&& 0xF < subtrahend &&& 0xF)
             carry := decide (subtrahend > cpu.registers.a) } } }

/-- Cpu::load_u8_into_stack — a plain memory write at the stack pointer. -/
def Cpu.load_u8_into_stack (cpu : Cpu) (memory : Memory) (value : Nat) :
    Option Memory :=
  memory.write cpu.registers.sp value

/-- Cpu::call — the source pushes `pc & 0xF` first and then `(pc >> 4) as u8`,
each after a pre-decrement of the stack pointer, and finally loads PC. -/
def Cpu.call (cpu : Cpu) (memory : Memory) (n16 : Nat) : Option (Cpu × Memory) :=
  let sp1 := sub16 cpu.registers.sp 1
  let lower := cpu.registers.pc &&& 0xF
  let upper := wrap8 (cpu.registers.pc >>> 4)
  let cpu1 := { cpu with registers := { cpu.registers with sp := sp1 } }
  (cpu1.load_u8_into_stack memory lower).bind fun m1 =>
    let sp2 := sub16 sp1 1
    let cpu2 := { cpu1 with registers := { cpu1.registers with sp := sp2 } }
    (cpu2.load_u8_into_stack m1 upper).bind fun m2 =>
      some ({ cpu2 with registers := { cpu2.registers with pc := n16 } }, m2)

/-- Cpu::ret — the source reads the two bytes at PC (not at SP), incrementing
PC after each read, then rebuilds PC with Registers::set_pc. -/
def Cpu.ret (cpu : Cpu) (memory : Memory) : Option Cpu :=
  (memory.read cpu.registers.pc).bind fun lower =>
    let pc1 := wrap16 (cpu.registers.pc + 1)
    (memory.read pc1).bind fun upper =>
      let pc2 := wrap16 (pc1 + 1)
      let cpu1 := { cpu with registers := { cpu.registers with pc := pc2 } }
      some { cpu1 with registers := cpu1.registers.set_pc lower upper }

/-- Cpu::set_ime — the source's guard `state != PENDING_NEW_INSTRUCTION ||
state != PENDING_INSTRUCTION_COMPLETION` is always true, so EI always moves
the state to PENDING_NEW_INSTRUCTION. -/
def Cpu.set_ime (cpu : Cpu) : Cpu :=
  if cpu.ime_state ≠ ImeState.PENDING_NEW_INSTRUCTION
      ∨ cpu.ime_state ≠ ImeState.PENDING_INSTRUCTION_COMPLETION then
    { cpu with ime_state := ImeState.PENDING_NEW_INSTRUCTION }
  else cpu

/-- Replace just the carry flag. -/
def Cpu.withCarry (cpu : Cpu) (carry : Bool) : Cpu :=
  { cpu with registers := { cpu.registers with
      f := { cpu.registers.f with carry := carry } } }

/-- Cpu::rotate_arithmetic_left — the source sets carry from `bit7 == 0`. -/
def Cpu.rotate_arithmetic_left (cpu : Cpu) (value : Nat) : Cpu × Nat :=
  let b7 := decide (value &&& 0x80 = 0)
  (cpu.withCarry b7, wrap8 (value <<< 1))

/-- Cpu::rotate_arithmetic_right — carry from `bit0 == 0`, bit 7 kept. -/
def Cpu.rotate_arithmetic_right (cpu : Cpu) (value : Nat) : Cpu × Nat :=
  let b7 := value &&& 0x80
  (cpu.withCarry (decide (value &&& 1 = 0)), (value >>> 1) ||| b7)

/-- Cpu::rotate_logical_right — identical to the arithmetic right rotate in
the source (bit 7 is kept there too). -/
def Cpu.rotate_logical_right (cpu : Cpu) (value : Nat) : Cpu × Nat :=
  let b7 := value &&& 0x80
  (cpu.withCarry (decide (value &&& 1 = 0)), (value >>> 1) ||| b7)

/-- Cpu::rotate_left_through_carry — carry from `bit7 == 0`, then the new
carry (not the old one) feeds bit 0. -/
def Cpu.rotate_left_through_carry (cpu : Cpu) (value : Nat) : Cpu × Nat :=
  let carry := decide (value &&& 0x80 = 0)
  let rot := wrap8 (value <<< 1)
  (cpu.withCarry carry, if carry then rot ||| 1 else rot)

/-- Cpu::rotate_left — carry from `bit7 == 0`, same bit fed back to bit 0. -/
def Cpu.rotate_left (cpu : Cpu) (value : Nat) : Cpu × Nat :=
  let b7 := decide (value &&& 0x80 = 0)
  let rot := wrap8 (value <<< 1)
  (cpu.withCarry b7, if b7 then rot ||| 1 else rot)

/-- Cpu::rotate_right_through_carry — carry from `bit0 == 0`, new carry feeds
bit 7. -/
def Cpu.rotate_right_through_carry (cpu : Cpu) (value : Nat) : Cpu × Nat :=
  let carry := decide (value &&& 1 = 0)
  let rot := value >>> 1
  (cpu.withCarry carry, if carry then rot ||| 0x80 else rot)

/-- Cpu::rotate_right — carry from `bit0 == 0`, same bit fed back to bit 7. -/
def Cpu.rotate_right (cpu : Cpu) (value : Nat) : Cpu × Nat :=
  let b0 := decide (value &&& 1 = 0)
  let rot := value >>> 1
  (cpu.withCarry b0, if b0 then rot ||| 0x80 else rot)

/-- Cpu::or_a. -/
def Cpu.or_a (cpu : Cpu) (rhs : Nat) : Cpu :=
  let a := cpu.registers.a ||| rhs
  { cpu with registers := { cpu.registers with
      a := a
      f := { zero := decide (a = 0), subtract := false
             half_carry := false, carry := false } } }

/-- Cpu::res_r8 — clear one bit of a register; the source also clears all
four flags. -/
def Cpu.res_r8 (cpu : Cpu) (bit : Nat) (r8 : R8) : Cpu :=
  let mask := 0xFF ^^^ (1 <<< bit)
  let value := cpu.registers.get_r8 r8 &&& mask
  { cpu with registers := { (cpu.registers.set_r8 r8 value) with
      f := { zero := false, subtract := false
             half_carry := false, carry := false } } }

/-- Cpu::res_hl — clear one bit of the byte behind HL; flags cleared too. -/
def Cpu.res_hl (cpu : Cpu) (memory : Memory) (bit : Nat) (hl_ref : Nat) :
    Option (Cpu × Memory) :=
  let mask := 0xFF ^^^ (1 <<< bit)
  (memory.read hl_ref).bind fun hl =>
    (memory.write hl_ref (hl &&& mask)).bind fun m1 =>
      some ({ cpu with registers := { cpu.registers with
          f := { zero := false, subtract := false
                 half_carry := false, carry := false } } }, m1)

/-- Cpu::swap. -/
def Cpu.swap (value : Nat) : Nat :=
  let upper := (value >>> 4) &&& 0xF
  let lower := value &&& 0xF
  (lower <<< 4) ||| upper

/-- The instruction catalogue (src/cpu/instructions.rs, enum Instruction). -/
inductive Instruction where
  | ADC_A_R8 (r8 : R8)
  | ADC_A_HL_PNTR
  | ADC_A_N8 (n8 : Nat)
  | ADD_A_R8 (r8 : R8)
  | ADD_A_HL_PNTR
  | ADD_A_N8 (n8 : Nat)
  | ADD_HL_R16 (r16 : R16)
  | ADD_HL_SP
  | ADD_SP_E8 (e8 : Int)
  | AND_A_R8 (r8 : R8)
  | AND_A_HL_PNTR
  | AND_A_N8 (n8 : Nat)
  | BIT_U3_R8 (u3 : U3) (r8 : R8)
  | BIT_U3_HL_PNTR (u3 : U3)
  | CALL_N16 (n16 : Nat)
  | CALL_CC_N16 (condition : Condition) (n16 : Nat)
  | CCF
  | CP_A_R8 (r8 : R8)
  | CP_A_N8 (n8 : Nat)
  | CP_A_HL_PNTR
  | CPL
  | DAA
  | DEC_R8 (r8 : R8)
  | DEC_HL_PNTR
  | DEC_R16 (r16 : R16)
  | DEC_SP
  | DI
  | EI
  | HALT
  | INC_R8 (r8 : R8)
  | INC_HL_PNTR
  | INC_R16 (r16 : R16)
  | INC_SP
  | JP_N16 (n16 : Nat)
  | JP_CC_N16 (condition : Condition) (n16 : Nat)
  | JP_HL
  | JR_N16 (offset : Int)
  | JR_CC_N16 (condition : Condition) (offset : Int)
  | LD_R8_R8 (dest : R8) (src : R8)
  | LD_R8_N8 (dest : R8) (n8 : Nat)
  | LD_R16_R16 (dest : R16) (src : R16)
  | LD_HL_PNTR_R8 (r8 : R8)
  | LD_HL_PNTR_N8 (n8 : Nat)
  | LD_R8_HL_PNTR (r8 : R8)
  | LD_R16_PNTR_A (r16 : R16)
  | LD_N16_PNTR_A (n16 : Nat)
  | LDH_N16_PNTR_A (n16 : Nat)
  | LDH_C_PNTR_A
  | LD_A_R16_PNTR (r16 : R16)
  | LD_A_N16_PNTR (n16 : Nat)
  | LDH_A_N16_PNTR (n16 : Nat)
  | LDH_A_C_PNTR
  | LD_HLI_PNTR_A
  | LD_HLD_PNTR_A
  | LD_A_HLI_PNTR
  | LD_A_HLD_PNTR
  | LD_SP_N16 (n16 : Nat)
  | LD_N16_PNTR_SP (n16 : Nat)
  | LD_HL_SPE8 (e8 : Int)
  | LD_SP_HL
  | NOP
  | OR_A_R8 (r8 : R8)
  | OR_A_HL_PNTR
  | OR_A_N8 (n8 : Nat)
  | POP_AF
  | POP_R16 (r16 : R16)
  | PUSH_AF
  | PUSH_R16 (r16 : R16)
  | RES_U3_R8 (u3 : U3) (r8 : R8)
  | RES_U3_HL_PNTR (u3 : U3)
  | RET
  | RET_CC (condition : Condition)
  | RETI
  | RL_R8 (r8 : R8)
  | RL_HL_PNTR
  | RLA
  | RLC_R8 (r8 : R8)
  | RLC_HL_PNTR
  | RLCA
  | RR_R8 (r8 : R8)
  | RR_HL_PNTR
  | RRA
  | RRC_R8 (r8 : R8)
  | RRC_HL_PNTR
  | RRCA
  | RST (vec : RstVec)
  | SBC_A_R8 (r8 : R8)
  | SBC_A_HL_PNTR
  | SBC_A_N8 (n8 : Nat)
  | SCF
  | SET_U3_R8 (u3 : U3) (r8 : R8)
  | SET_U3_HL_PNTR (u3 : U3)
  | SLA_R8 (r8 : R8)
  | SLA_HL_PNTR
  | SRA_R8 (r8 : R8)
  | SRA_HL_PNTR
  | SRL_R8 (r8 : R8)
  | SRL_HL_PNTR
  | STOP
  | SUB_A_R8 (r8 : R8)
  | SUB_A_HL_PNTR
  | SUB_A_N8 (n8 : Nat)
  | SWAP_R8 (r8 : R8)
  | SWAP_HL_PNTR
  | XOR_A_R8 (r8 : R8)
  | XOR_A_HL_PNTR
  | XOR_A_N8 (n8 : Nat)

/-- The end-of-instruction IME update at the bottom of Cpu::execute. -/
def ime_epilogue (s : ImeState) : ImeState :=
  if s = ImeState.PENDING_INSTRUCTION_COMPLETION then ImeState.SET
  else if s = ImeState.PENDING_NEW_INSTRUCTION then ImeState.PENDING_INSTRUCTION_COMPLETION
  else s

/-- Shared shape of the result of one match arm of Cpu::execute: new CPU, new
memory, t-cycle count, and whether the arm left via an early `return`
(bypassing the IME epilogue).  `none` is a panic. -/
def ArmResult := Option (Cpu × Memory × Nat × Bool)

/-- Helper: an arm that only changed the CPU and falls through. -/
def armC (cpu : Cpu) (memory : Memory) (t : Nat) : ArmResult :=
  some (cpu, memory, t, false)

/-- The match block of Cpu::execute (src/cpu/mod.rs), arm by arm.  Cycle
counts and the early `return`s of the taken conditional branches are exactly
the source's.  `none` is a panic (the HALT `todo!()` or a panicking memory
access). -/
def Cpu.execute_inner (cpu : Cpu) (i : Instruction) (memory : Memory) : ArmResult :=
  match i with
  | Instruction.ADC_A_R8 r8 => armC (cpu.add_a (cpu.registers.get_r8 r8) true) memory 4
  | Instruction.ADC_A_HL_PNTR =>
      (memory.read cpu.registers.get_hl).bind fun rhs => armC (cpu.add_a rhs true) memory 8
  | Instruction.ADC_A_N8 n8 => armC (cpu.add_a n8 true) memory 8
  | Instruction.ADD_A_R8 r8 => armC (cpu.add_a (cpu.registers.get_r8 r8) false) memory 4
  | Instruction.ADD_A_HL_PNTR =>
      (memory.read cpu.registers.get_hl).bind fun rhs => armC (cpu.add_a rhs false) memory 8
  | Instruction.ADD_A_N8 n8 => armC (cpu.add_a n8 false) memory 8
  | Instruction.ADD_HL_R16 r16 => armC (cpu.add_hl (cpu.registers.get_r16 r16)) memory 8
  | Instruction.ADD_HL_SP => armC (cpu.add_hl cpu.registers.sp) memory 8
  | Instruction.ADD_SP_E8 e8 => armC (cpu.add_sp e8) memory 16
  | Instruction.AND_A_R8 r8 => armC (cpu.and (cpu.registers.get_r8 r8)) memory 4
  | Instruction.AND_A_HL_PNTR =>
      (memory.read cpu.registers.get_hl).bind fun rhs => armC (cpu.and rhs) memory 8
  | Instruction.AND_A_N8 n8 => armC (cpu.and n8) memory 8
  | Instruction.BIT_U3_R8 u3 r8 => armC (cpu.bit u3 (cpu.registers.get_r8 r8)) memory 8
  | Instruction.BIT_U3_HL_PNTR u3 =>
      (memory.read cpu.registers.get_hl).bind fun byte => armC (cpu.bit u3 byte) memory 12
  | Instruction.CALL_N16 n16 =>
      (cpu.call memory n16).bind fun r => armC r.1 r.2 24
  | Instruction.CALL_CC_N16 condition n16 =>
      let proceed := cpu.check_condition condition
      if proceed then
        (cpu.call memory n16).bind fun r => some (r.1, r.2, 12, true)
      else armC cpu memory 24
  | Instruction.CCF =>
      armC (cpu.withCarry (!cpu.registers.f.carry)) memory 4
  | Instruction.CP_A_R8 r8 => armC (cpu.cp (cpu.registers.get_r8 r8)) memory 4
  | Instruction.CP_A_HL_PNTR =>
      (memory.read cpu.registers.get_hl).bind fun v => armC (cpu.cp v) memory 8
  | Instruction.CP_A_N8 n8 => armC (cpu.cp n8) memory 8
  | Instruction.CPL =>
      armC { cpu with registers := { cpu.registers with
          a := cpu.registers.a ^^^ 0xFF
          f := { cpu.registers.f with subtract := true, half_carry := true } } } memory 4
  | Instruction.DAA =>
      let a := cpu.registers.a
      let cpu1 :=
        if (a &&& 0x0F) > 9 || cpu.registers.f.half_carry then
          { cpu with registers := { cpu.registers with
              a := wrap8 (a + 0x06)
              f := { cpu.registers.f with carry := false } } }
        else cpu
      let cpu2 :=
        if (a &&& 0xF0) > 0x90 || cpu1.registers.f.carry then
          { cpu1 with registers := { cpu1.registers with
              a := wrap8 (a + 0x60)
              f := { cpu1.registers.f with carry := true } } }
        else cpu1
      armC { cpu2 with registers := { cpu2.registers with
          f := { cpu2.registers.f with zero := decide (cpu2.registers.a = 0) } } } memory 4
  | Instruction.DEC_R8 r8 =>
      let r8_val := cpu.registers.get_r8 r8
      let r8_val_dec := sub8 r8_val 1
      armC { cpu with registers := { (cpu.registers.set_r8 r8 r8_val_dec) with
          f := { cpu.registers.f with
                 zero := decide (r8_val_dec = 0)
                 subtract := true
                 half_carry := decide (r8_val_dec &&& 0x8 ≠ r8_val &&& 0x8) } } } memory 4
  | Instruction.DEC_HL_PNTR =>
      let hl := cpu.registers.get_hl
      (memory.read hl).bind fun hl_val =>
        let hl_val_dec := sub8 hl_val 1
        (memory.write hl hl_val_dec).bind fun m1 =>
          armC { cpu with registers := { cpu.registers with
              f := { cpu.registers.f with
                     zero := decide (hl_val_dec = 0)
                     subtract := true
                     half_carry := decide (hl_val_dec &&& 0x8 ≠ hl_val &&& 0x8) } } } m1 12
  | Instruction.DEC_R16 r16 =>
      let r16_val := cpu.registers.get_r16 r16
      armC { cpu with registers := cpu.registers.set_r16 r16 (sub16 r16_val 1) } memory 8
  | Instruction.DEC_SP =>
      armC { cpu with registers := { cpu.registers with
          sp := sub16 cpu.registers.sp 1 } } memory 8
  | Instruction.DI => armC { cpu with ime_state := ImeState.UNSET } memory 4
  | Instruction.EI => armC cpu.set_ime memory 4
  | Instruction.HALT =>
      if cpu.ime_state = ImeState.SET then
        armC { cpu with low_power_mode := true } memory 4
      else none
  | Instruction.INC_R8 r8 =>
      let r8_val := cpu.registers.get_r8 r8
      let r8_val_inc := wrap8 (r8_val + 1)
      armC { cpu with registers := { (cpu.registers.set_r8 r8 r8_val_inc) with
          f := { cpu.registers.f with
                 zero := decide (r8_val_inc = 0)
                 subtract := false
                 half_carry := decide (r8_val_inc &&& 0x8 ≠ r8_val &&& 0x8) } } } memory 4
  | Instruction.INC_HL_PNTR =>
      let hl := cpu.registers.get_hl
      (memory.read hl).bind fun hl_val =>
        let hl_val_inc := wrap8 (hl_val + 1)
        (memory.write hl hl_val_inc).bind fun m1 =>
          armC { cpu with registers := { cpu.registers with
              f := { cpu.registers.f with
                     zero := decide (hl_val_inc = 0)
                     subtract := true
                     half_carry := decide (hl_val_inc &&& 0x8 ≠ hl_val &&& 0x8) } } } m1 12
  | Instruction.INC_R16 r16 =>
      let r16_val := cpu.registers.get_r16 r16
      armC { cpu with registers := cpu.registers.set_r16 r16 (wrap16 (r16_val + 1)) } memory 8
  | Instruction.INC_SP =>
      armC { cpu with registers := { cpu.registers with
          sp := wrap16 (cpu.registers.sp + 1) } } memory 8
  | Instruction.JP_N16 n16 => armC (cpu.jump n16) memory 16
  | Instruction.JP_CC_N16 condition n16 =>
      let proceed := cpu.check_condition condition
      if proceed then some (cpu.jump n16, memory, 16, true)
      else armC cpu memory 12
  | Instruction.JP_HL => armC (cpu.jump cpu.registers.get_hl) memory 4
  | Instruction.JR_N16 offset =>
      armC (cpu.jump (cpu.position_from_offset offset)) memory 12
  | Instruction.JR_CC_N16 condition offset =>
      let proceed := cpu.check_condition condition
      if proceed then some (cpu.jump (cpu.position_from_offset offset), memory, 12, true)
      else armC cpu memory 8
  | Instruction.LD_R8_R8 dest src =>
      armC { cpu with registers := cpu.registers.set_r8 dest (cpu.registers.get_r8 src) }
        memory 4
  | Instruction.LD_R8_N8 dest n8 =>
      armC { cpu with registers := cpu.registers.set_r8 dest n8 } memory 8
  | Instruction.LD_R16_R16 dest src =>
      armC { cpu with registers := cpu.registers.set_r16 dest (cpu.registers.get_r16 src) }
        memory 12
  | Instruction.LD_HL_PNTR_R8 r8 =>
      (memory.write cpu.registers.get_hl (cpu.registers.get_r8 r8)).bind fun m1 =>
        armC cpu m1 8
  | Instruction.LD_HL_PNTR_N8 n8 =>
      (memory.write cpu.registers.get_hl n8).bind fun m1 => armC cpu m1 12
  | Instruction.LD_R8_HL_PNTR r8 =>
      (memory.read cpu.registers.get_hl).bind fun value =>
        armC { cpu with registers := cpu.registers.set_r8 r8 value } memory 8
  | Instruction.LD_R16_PNTR_A r16 =>
      (memory.write (cpu.registers.get_r16 r16) cpu.registers.a).bind fun m1 =>
        armC cpu m1 8
  | Instruction.LD_N16_PNTR_A n16 =>
      (memory.write n16 cpu.registers.a).bind fun m1 => armC cpu m1 16
  | Instruction.LDH_N16_PNTR_A n16 =>
      if 0xFF00 ≤ n16 ∧ n16 < 0xFFFF then
        (memory.read n16).bind fun value =>
          armC { cpu with registers := { cpu.registers with a := value } } memory 12
      else armC cpu memory 12
  | Instruction.LDH_C_PNTR_A =>
      (memory.read (0xFF00 + cpu.registers.c)).bind fun value =>
        armC { cpu with registers := { cpu.registers with a := value } } memory 8
  | Instruction.LD_A_R16_PNTR r16 =>
      (memory.read (cpu.registers.get_r16 r16)).bind fun value =>
        armC { cpu with registers := { cpu.registers with a := value } } memory 8
  | Instruction.LD_A_N16_PNTR n16 =>
      (memory.read n16).bind fun value =>
        armC { cpu with registers := { cpu.registers with a := value } } memory 16
  | Instruction.LDH_A_N16_PNTR n16 =>
      if 0xFF00 ≤ n16 ∧ n16 < 0xFFFF then
        (memory.read n16).bind fun value =>
          armC { cpu with registers := { cpu.registers with a := value } } memory 12
      else armC cpu memory 12
  | Instruction.LDH_A_C_PNTR =>
      (memory.read (0xFF00 + cpu.registers.c)).bind fun value =>
        armC { cpu with registers := { cpu.registers with a := value } } memory 8
  | Instruction.LD_HLI_PNTR_A =>
      let hl := cpu.registers.get_hl
      (memory.write hl cpu.registers.a).bind fun m1 =>
        armC { cpu with registers := cpu.registers.set_hl (wrap16 (hl + 1)) } m1 8
  | Instruction.LD_HLD_PNTR_A =>
      let hl := cpu.registers.get_hl
      (memory.write hl cpu.registers.a).bind fun m1 =>
        armC { cpu with registers := cpu.registers.set_hl (sub16 hl 1) } m1 8
  | Instruction.LD_A_HLD_PNTR =>
      let hl := cpu.registers.get_hl
      (memory.read hl).bind fun value =>
        armC { cpu with registers :=
            { (cpu.registers.set_hl (sub16 hl 1)) with a := value } } memory 8
  | Instruction.LD_A_HLI_PNTR =>
      let hl := cpu.registers.get_hl
      (memory.read hl).bind fun value =>
        armC { cpu with registers :=
            { (cpu.registers.set_hl (wrap16 (hl + 1))) with a := value } } memory 8
  | Instruction.LD_SP_N16 n16 =>
      armC { cpu with registers := { cpu.registers with sp := n16 } } memory 12
  | Instruction.LD_N16_PNTR_SP n16 =>
      (memory.write n16 (cpu.registers.sp &&& 0xFF)).bind fun m1 =>
        (m1.write (wrap16 (n16 + 1)) (wrap8 (cpu.registers.sp >>> 8))).bind fun m2 =>
          armC cpu m2 20
  | Instruction.LD_HL_SPE8 e8 =>
      let sp := cpu.registers.sp
      let value := wrap16 (sp + i8_as_u16 e8)
      armC { cpu with registers := { (cpu.registers.set_hl value) with
          f := { zero := false
                 subtract := false
                 half_carry := decide ((sp &&& 0xF) + (value &&& 0xF) > 0xF)
                 carry := decide ((sp &&& 0xFF) + 0xFF > 0xFF) } } } memory 12
  | Instruction.LD_SP_HL =>
      armC { cpu with registers := { cpu.registers with
          sp := cpu.registers.get_hl } } memory 8
  | Instruction.NOP => armC cpu memory 1
  | Instruction.OR_A_R8 r8 => armC (cpu.or_a (cpu.registers.get_r8 r8)) memory 4
  | Instruction.OR_A_HL_PNTR =>
      (memory.read cpu.registers.get_hl).bind fun v => armC (cpu.or_a v) memory 8
  | Instruction.OR_A_N8 n8 => armC (cpu.or_a n8) memory 8
  | Instruction.POP_AF =>
      (memory.read cpu.registers.sp).bind fun fbyte =>
        let sp1 := wrap16 (cpu.registers.sp + 1)
        (memory.read sp1).bind fun abyte =>
          let sp2 := wrap16 (sp1 + 1)
          armC { cpu with registers := { cpu.registers with
              f := Flags.fromByte fbyte, a := abyte, sp := sp2 } } memory 12
  | Instruction.POP_R16 r16 =>
      let lower := r16.get_lower
      let upper := r16.get_upper
      (memory.read cpu.registers.sp).bind fun lval =>
        let sp1 := wrap16 (cpu.registers.sp + 1)
        (memory.read sp1).bind fun uval =>
          let sp2 := wrap16 (sp1 + 1)
          armC { cpu with registers :=
              { ((cpu.registers.set_r8 lower lval).set_r8 upper uval) with
                sp := sp2 } } memory 12
  | Instruction.PUSH_AF =>
      let sp1 := sub16 cpu.registers.sp 1
      let cpu1 := { cpu with registers := { cpu.registers with sp := sp1 } }
      (cpu1.load_u8_into_stack memory cpu1.registers.a).bind fun m1 =>
        let sp2 := sub16 sp1 1
        let cpu2 := { cpu1 with registers := { cpu1.registers with sp := sp2 } }
        (cpu2.load_u8_into_stack m1 (flags_to_u8 cpu2.registers.f)).bind fun m2 =>
          armC cpu2 m2 16
  | Instruction.PUSH_R16 r16 =>
      let sp1 := sub16 cpu.registers.sp 1
      let cpu1 := { cpu with registers := { cpu.registers with sp := sp1 } }
      let lower := cpu1.registers.get_r8 r16.get_lower
      let upper := cpu1.registers.get_r8 r16.get_upper
      (cpu1.load_u8_into_stack memory upper).bind fun m1 =>
        let sp2 := sub16 sp1 1
        let cpu2 := { cpu1 with registers := { cpu1.registers with sp := sp2 } }
        (cpu2.load_u8_into_stack m1 lower).bind fun m2 =>
          armC cpu2 m2 16
  | Instruction.RES_U3_R8 u3 r8 => armC (cpu.res_r8 u3.get r8) memory 2
  | Instruction.RES_U3_HL_PNTR u3 =>
      (cpu.res_hl memory u3.get cpu.registers.get_hl).bind fun r => armC r.1 r.2 4
  | Instruction.RET => (cpu.ret memory).bind fun c1 => armC c1 memory 12
  | Instruction.RET_CC condition =>
      let proceed := cpu.check_condition condition
      if proceed then (cpu.ret memory).bind fun c1 => some (c1, memory, 20, true)
      else armC cpu memory 8
  | Instruction.RETI =>
      let cpu1 := { cpu with ime_state := ImeState.PENDING_INSTRUCTION_COMPLETION }
      (cpu1.ret memory).bind fun c2 => armC c2 memory 16
  | Instruction.RL_R8 r8 =>
      let p := cpu.rotate_left_through_carry (cpu.registers.get_r8 r8)
      armC { p.1 with registers := { (p.1.registers.set_r8 r8 p.2) with
          f := { p.1.registers.f with
                 zero := decide (p.2 = 0), subtract := false, half_carry := false } } }
        memory 8
  | Instruction.RL_HL_PNTR =>
      (memory.read cpu.registers.get_hl).bind fun v =>
        let p := cpu.rotate_left_through_carry v
        (memory.write p.1.registers.get_hl p.2).bind fun m1 =>
          armC { p.1 with registers := { p.1.registers with
              f := { p.1.registers.f with
                     zero := decide (p.2 = 0), subtract := false, half_carry := false } } }
            m1 16
  | Instruction.RLA =>
      let p := cpu.rotate_left_through_carry cpu.registers.a
      armC { p.1 with registers := { p.1.registers with
          a := p.2
          f := { p.1.registers.f with
                 zero := false, subtract := false, half_carry := false } } } memory 4
  | Instruction.RLC_R8 r8 =>
      let p := cpu.rotate_left (cpu.registers.get_r8 r8)
      armC { p.1 with registers := { (p.1.registers.set_r8 r8 p.2) with
          f := { p.1.registers.f with
                 zero := decide (p.2 = 0), subtract := false, half_carry := false } } }
        memory 8
  | Instruction.RLC_HL_PNTR =>
      (memory.read cpu.registers.get_hl).bind fun v =>
        let p := cpu.rotate_left v
        (memory.write p.1.registers.get_hl p.2).bind fun m1 =>
          armC { p.1 with registers := { p.1.registers with
              f := { p.1.registers.f with
                     zero := decide (p.2 = 0), subtract := false, half_carry := false } } }
            m1 16
  | Instruction.RLCA =>
      let p := cpu.rotate_left cpu.registers.a
      armC { p.1 with registers := { p.1.registers with
          a := p.2
          f := { p.1.registers.f with
                 zero := decide (p.2 = 0), subtract := false, half_carry := false } } }
        memory 4
  | Instruction.RR_R8 r8 =>
      let p := cpu.rotate_right_through_carry (cpu.registers.get_r8 r8)
      armC { p.1 with registers := { (p.1.registers.set_r8 r8 p.2) with
          f := { p.1.registers.f with
                 zero := decide (p.2 = 0), subtract := false, half_carry := false } } }
        memory 8
  | Instruction.RR_HL_PNTR =>
      (memory.read cpu.registers.get_hl).bind fun v =>
        let p := cpu.rotate_right_through_carry v
        (memory.write p.1.registers.get_hl p.2).bind fun m1 =>
          armC { p.1 with registers := { p.1.registers with
              f := { p.1.registers.f with
                     zero := decide (p.2 = 0), subtract := false, half_carry := false } } }
            m1 16
  | Instruction.RRA =>
      let p := cpu.rotate_right_through_carry cpu.registers.a
      armC { p.1 with registers := { p.1.registers with
          a := p.2
          f := { p.1.registers.f with
                 zero := false, subtract := false, half_carry := false } } } memory 4
  | Instruction.RRC_R8 r8 =>
      let p := cpu.rotate_right (cpu.registers.get_r8 r8)
      armC { p.1 with registers := { (p.1.registers.set_r8 r8 p.2) with
          f := { p.1.registers.f with
                 zero := decide (p.2 = 0), subtract := false, half_carry := false } } }
        memory 8
  | Instruction.RRC_HL_PNTR =>
      (memory.read cpu.registers.get_hl).bind fun v =>
        let p := cpu.rotate_right v
        (memory.write p.1.registers.get_hl p.2).bind fun m1 =>
          armC { p.1 with registers := { p.1.registers with
              f := { p.1.registers.f with
                     zero := decide (p.2 = 0), subtract := false, half_carry := false } } }
            m1 16
  | Instruction.RRCA =>
      let p := cpu.rotate_right cpu.registers.a
      armC { p.1 with registers := { p.1.registers with
          a := p.2
          f := { p.1.registers.f with
                 zero := decide (p.2 = 0), subtract := false, half_carry := false } } }
        memory 4
  | Instruction.RST vec =>
      (cpu.call memory vec.get).bind fun r => armC r.1 r.2 16
  | Instruction.SBC_A_R8 r8 =>
      let c := if cpu.registers.f.carry then 1 else 0
      let subtrahend := wrap8 (cpu.registers.get_r8 r8 + c)
      let previous := cpu.registers.a
      -- the source first stores `carry = (a == 0)` and then overwrites it
      armC { cpu with registers := { cpu.registers with
          a := sub8 previous subtrahend
          f := { cpu.registers.f with
                 subtract := false
                 half_carry := decide ((previous &&& 0xF) < (subtrahend &&& 0xF))
                 carry := decide (previous < subtrahend) } } } memory 4
  | Instruction.SBC_A_HL_PNTR =>
      let previous := cpu.registers.a
      let c := if cpu.registers.f.carry then 1 else 0
      (memory.read cpu.registers.get_hl).bind fun hl =>
        let subtrahend := wrap8 (hl + c)
        armC { cpu with registers := { cpu.registers with
            a := sub8 previous subtrahend
            f := { cpu.registers.f with
                   subtract := false
                   half_carry := decide ((previous &&& 0xF) < (subtrahend &&& 0xF))
                   carry := decide (previous < subtrahend) } } } memory 8
  | Instruction.SBC_A_N8 n8 =>
      let previous := cpu.registers.a
      let c := if cpu.registers.f.carry then 1 else 0
      let subtrahend := wrap8 (n8 + c)
      armC { cpu with registers := { cpu.registers with
          a := sub8 previous subtrahend
          f := { cpu.registers.f with
                 subtract := false
                 half_carry := decide ((previous &&& 0xF) < (subtrahend &&& 0xF))
                 carry := decide (previous < subtrahend) } } } memory 8
  | Instruction.SCF =>
      armC { cpu with registers := { cpu.registers with
          f := { cpu.registers.f with
                 carry := true, subtract := false, half_carry := false } } } memory 4
  | Instruction.SET_U3_R8 u3 r8 =>
      -- `1u8 << (u3.get() - 1)`: wrapping u8 subtraction, shift amount
      -- masked to 3 bits in the release profile
      let mask := wrap8 (1 <<< ((sub8 u3.get 1) &&& 7))
      armC { cpu with registers :=
          cpu.registers.set_r8 r8 (cpu.registers.get_r8 r8 ||| mask) } memory 8
  | Instruction.SET_U3_HL_PNTR u3 =>
      -- the source sets the bit in the HL register pair itself (not in
      -- memory); the u16 shift amount is masked to 4 bits
      let mask := wrap16 (1 <<< ((sub8 u3.get 1) &&& 15))
      armC { cpu with registers :=
          cpu.registers.set_hl (cpu.registers.get_hl ||| mask) } memory 8
  | Instruction.SLA_R8 r8 =>
      let p := cpu.rotate_arithmetic_left (cpu.registers.get_r8 r8)
      armC { p.1 with registers := { (p.1.registers.set_r8 r8 p.2) with
          f := { p.1.registers.f with
                 zero := decide (p.2 = 0), subtract := false, half_carry := false } } }
        memory 8
  | Instruction.SLA_HL_PNTR =>
      (memory.read cpu.registers.get_hl).bind fun v =>
        let p := cpu.rotate_arithmetic_left v
        (memory.write p.1.registers.get_hl p.2).bind fun m1 =>
          armC { p.1 with registers := { p.1.registers with
              f := { p.1.registers.f with
                     zero := decide (p.2 = 0), subtract := false, half_carry := false } } }
            m1 16
  | Instruction.SRA_R8 r8 =>
      let p := cpu.rotate_arithmetic_right (cpu.registers.get_r8 r8)
      armC { p.1 with registers := { (p.1.registers.set_r8 r8 p.2) with
          f := { p.1.registers.f with
                 zero := decide (p.2 = 0), subtract := false, half_carry := false } } }
        memory 8
  | Instruction.SRA_HL_PNTR =>
      (memory.read cpu.registers.get_hl).bind fun v =>
        let p := cpu.rotate_arithmetic_right v
        (memory.write p.1.registers.get_hl p.2).bind fun m1 =>
          armC { p.1 with registers := { p.1.registers with
              f := { p.1.registers.f with
                     zero := decide (p.2 = 0), subtract := false, half_carry := false } } }
            m1 16
  | Instruction.SRL_R8 r8 =>
      let p := cpu.rotate_logical_right (cpu.registers.get_r8 r8)
      armC { p.1 with registers := { (p.1.registers.set_r8 r8 p.2) with
          f := { p.1.registers.f with
                 zero := decide (p.2 = 0), subtract := false, half_carry := false } } }
        memory 8
  | Instruction.SRL_HL_PNTR =>
      (memory.read cpu.registers.get_hl).bind fun v =>
        let p := cpu.rotate_logical_right v
        (memory.write p.1.registers.get_hl p.2).bind fun m1 =>
          armC { p.1 with registers := { p.1.registers with
              f := { p.1.registers.f with
                     zero := decide (p.2 = 0), subtract := false, half_carry := false } } }
            m1 8
  | Instruction.STOP => armC { cpu with very_low_power_mode := true } memory 4
  | Instruction.SUB_A_R8 r8 =>
      let value := cpu.registers.get_r8 r8
      let previous := cpu.registers.a
      armC { cpu with registers := { cpu.registers with
          a := sub8 previous value
          f := { zero := decide (sub8 previous value = 0)
                 subtract := true
                 half_carry := decide ((value &&& 0x10) > (previous &&& 0x10))
                 carry := decide (value > previous) } } } memory 4
  | Instruction.SUB_A_HL_PNTR =>
      (memory.read cpu.registers.get_hl).bind fun value =>
        let previous := cpu.registers.a
        armC { cpu with registers := { cpu.registers with
            a := sub8 previous value
            f := { zero := decide (sub8 previous value = 0)
                   subtract := true
                   half_carry := decide ((value &&& 0x10) > (previous &&& 0x10))
                   carry := decide (value > previous) } } } memory 4
  | Instruction.SUB_A_N8 n8 =>
      let previous := cpu.registers.a
      armC { cpu with registers := { cpu.registers with
          a := sub8 previous n8
          f := { zero := decide (sub8 previous n8 = 0)
                 subtract := true
                 half_carry := decide ((n8 &&& 0x10) > (previous &&& 0x10))
                 carry := decide (n8 > previous) } } } memory 4
  | Instruction.SWAP_R8 r8 =>
      let result := Cpu.swap (cpu.registers.get_r8 r8)
      armC { cpu with registers := { (cpu.registers.set_r8 r8 result) with
          f := { zero := decide (result = 0), subtract := false
                 half_carry := false, carry := false } } } memory 8
  | Instruction.SWAP_HL_PNTR =>
      (memory.read cpu.registers.get_hl).bind fun v =>
        let result := Cpu.swap v
        (memory.write cpu.registers.get_hl result).bind fun m1 =>
          armC { cpu with registers := { cpu.registers with
              f := { zero := decide (result = 0), subtract := false
                     half_carry := false, carry := false } } } m1 16
  | Instruction.XOR_A_R8 r8 =>
      let a := cpu.registers.a ^^^ cpu.registers.get_r8 r8
      armC { cpu with registers := { cpu.registers with
          a := a
          f := { zero := decide (a = 0), subtract := false
                 half_carry := false, carry := false } } } memory 4
  | Instruction.XOR_A_HL_PNTR =>
      (memory.read cpu.registers.get_hl).bind fun v =>
        let a := cpu.registers.a ^^^ v
        armC { cpu with registers := { cpu.registers with
            a := a
            f := { zero := decide (a = 0), subtract := false
                   half_carry := false, carry := false } } } memory 8
  | Instruction.XOR_A_N8 n8 =>
      let a := cpu.registers.a ^^^ n8
      armC { cpu with registers := { cpu.registers with
          a := a
          f := { zero := decide (a = 0), subtract := false
                 half_carry := false, carry := false } } } memory 8

/-- Cpu::execute: run the match arm, then (unless the arm left by an early
`return`) apply the end-of-instruction IME update, and yield the t-cycle
count. -/
def Cpu.execute (cpu : Cpu) (i : Instruction) (memory : Memory) :
    Option (Cpu × Memory × Nat) :=
  (cpu.execute_inner i memory).bind fun r =>
    if r.2.2.2 then some (r.1, r.2.1, r.2.2.1)
    else some ({ r.1 with ime_state := ime_epilogue r.1.ime_state }, r.2.1, r.2.2.1)

/-- Licensee (src/cartridge/header.rs) — only the None variant exists. -/
inductive Licensee where
  | NoneL
deriving DecidableEq

/-- The 27 cartridge types (src/cartridge/header.rs, enum CartridgeType). -/
inductive CartridgeType where
  | ROMOnly
  | MBC1
  | MBC1RAM
  | MBC1RAMBattery
  | MBC2
  | MBC2Battery
  | ROMRAM
  | ROMRAMBattery
  | MMM01
  | MMM01RAM
  | MMM01RAMBattery
  | MBC3TimerBattery
  | MBC3TimerRAMBattery
  | MBC3
  | MBC3RAM
  | MBC3RAMBattery
  | MBC5
  | MBC5RAM
  | MBC5RAMBattery
  | MBC5Rumble
  | MBC5RumbleRAM
  | MBC5RumbleRAMBattery
  | MBC6
  | MBC7SensorRumbleRAMBattery
  | PocketCamera
  | BandaiTAMA5
  | HuC3
  | HuC1RAMBattery
deriving DecidableEq

/-- Destination codes (src/cartridge/header.rs, enum DestinationCode). -/
inductive DestinationCode where
  | Japanese
  | Overseas
deriving DecidableEq

/-- The parsed header (src/cartridge/header.rs, struct header). -/
structure header where
  title : List Nat
  manufacturer_code : List Nat
  licensee : Licensee
  cgb : Bool
  sgb : Bool
  cartridge_type : CartridgeType
  rom_size : Nat
  num_rom_banks : Nat
  ram_size : Nat
  destination_code : DestinationCode
  version_number : Nat
deriving DecidableEq

/-- Failure modes of header::new: the checksum `panic!`, the
`copy_from_slice` length-mismatch panic, and the `unimplemented!()` arms of
the field decoding matches. -/
inductive HeaderError where
  | checksumFailed
  | copyLengthMismatch
  | unimplementedField
deriving DecidableEq

/-- checksum (src/cartridge/header.rs): fold `sum = sum - rom[byte] - 1` in
wrapping u16 arithmetic over bytes 0x134..0x14D (exclusive). -/
def checksum (rom : List Nat) : Nat :=
  List.foldl (fun sum byte => sub16 (sub16 sum (rom.getD byte 0)) 1) 0
    (List.range' 0x134 0x19)

/-- Rust `<[u8]>::copy_from_slice`: succeeds only when the lengths agree,
panics otherwise. -/
def copy_from_slice (dst src : List Nat) : Option (List Nat) :=
  if src.length = dst.length then some src else none

/-- Rust slicing `rom[a..b]`. -/
def listSlice (xs : List Nat) (a b : Nat) : List Nat :=
  (xs.drop a).take (b - a)

/-- Cartridge-type decoding match of header::new. -/
def cartridge_type_of (b : Nat) : Option CartridgeType :=
  if b = 0x00 then some CartridgeType.ROMOnly
  else if b = 0x01 then some CartridgeType.MBC1
  else if b = 0x02 then some CartridgeType.MBC1RAM
  else if b = 0x03 then some CartridgeType.MBC1RAMBattery
  else if b = 0x05 then some CartridgeType.MBC2
  else if b = 0x06 then some CartridgeType.MBC2Battery
  else if b = 0x08 then some CartridgeType.ROMRAM
  else if b = 0x09 then some CartridgeType.ROMRAMBattery
  else if b = 0x0B then some CartridgeType.MMM01
  else if b = 0x0C then some CartridgeType.MMM01RAM
  else if b = 0x0D then some CartridgeType.MMM01RAMBattery
  else if b = 0x0F then some CartridgeType.MBC3TimerBattery
  else if b = 0x10 then some CartridgeType.MBC3TimerRAMBattery
  else if b = 0x11 then some CartridgeType.MBC3
  else if b = 0x12 then some CartridgeType.MBC3RAM
  else if b = 0x13 then some CartridgeType.MBC3RAMBattery
  else if b = 0x19 then some CartridgeType.MBC5
  else if b = 0x1A then some CartridgeType.MBC5RAM
  else if b = 0x1B then some CartridgeType.MBC5RAMBattery
  else if b = 0x1C then some CartridgeType.MBC5Rumble
  else if b = 0x1D then some CartridgeType.MBC5RumbleRAM
  else if b = 0x1E then some CartridgeType.MBC5RumbleRAMBattery
  else if b = 0x20 then some CartridgeType.MBC6
  else if b = 0x22 then some CartridgeType.MBC7SensorRumbleRAMBattery
  else if b = 0xFC then some CartridgeType.PocketCamera
  else if b = 0xFD then some CartridgeType.BandaiTAMA5
  else if b = 0xFE then some CartridgeType.HuC3
  else if b = 0xFF then some CartridgeType.HuC1RAMBattery
  else none

/-- ROM-size decoding match of header::new. -/
def rom_size_of (b : Nat) : Option Nat :=
  if b = 0x00 then some (32 * 1024)
  else if b = 0x01 then some (64 * 1024)
  else if b = 0x02 then some (128 * 1024)
  else if b = 0x03 then some (256 * 1024)
  else if b = 0x04 then some (512 * 1024)
  else if b = 0x05 then some (1024 * 1024)
  else if b = 0x06 then some (2048 * 1024)
  else if b = 0x07 then some (4096 * 1024)
  else if b = 0x52 then some (1152 * 1024)
  else if b = 0x53 then some (1280 * 1024)
  else if b = 0x54 then some (1536 * 1024)
  else none

/-- ROM-bank-count decoding match of header::new. -/
def num_rom_banks_of (b : Nat) : Option Nat :=
  if b = 0x00 then some 2
  else if b = 0x01 then some 4
  else if b = 0x02 then some 8
  else if b = 0x03 then some 16
  else if b = 0x04 then some 32
  else if b = 0x05 then some 64
  else if b = 0x06 then some 128
  else if b = 0x07 then some 256
  else if b = 0x52 then some 72
  else if b = 0x53 then some 80
  else if b = 0x54 then some 96
  else none

/-- RAM-size decoding match of header::new. -/
def ram_size_of (b : Nat) : Option Nat :=
  if b = 0x00 then some 0
  else if b = 0x02 then some (8 * 1024)
  else if b = 0x03 then some (32 * 1024)
  else if b = 0x04 then some (128 * 1024)
  else if b = 0x05 then some (64 * 1024)
  else none

/-- Destination-code decoding match of header::new. -/
def destination_code_of (b : Nat) : Option DestinationCode :=
  if b = 0x00 then some DestinationCode.Japanese
  else if b = 0x01 then some DestinationCode.Overseas
  else none

/-- header::new on a 0x150-byte image: reject on checksum mismatch, then copy
the title (a 16-byte buffer filled from the 15-byte slice 0x134..0x143 — a
guaranteed length-mismatch panic) and the manufacturer code (4-byte buffer,
3-byte slice 0x13F..0x142), then decode the enumerated fields. -/
def header.new (rom : List Nat) : Except HeaderError header :=
  if rom.getD 0x14D 0 ≠ wrap8 (checksum rom) then
    Except.error HeaderError.checksumFailed
  else
    match copy_from_slice (List.replicate 16 0) (listSlice rom 0x134 0x143) with
    | none => Except.error HeaderError.copyLengthMismatch
    | some title =>
      match copy_from_slice (List.replicate 4 0) (listSlice rom 0x13F 0x142) with
      | none => Except.error HeaderError.copyLengthMismatch
      | some manufacturer_code =>
        match cartridge_type_of (rom.getD 0x147 0) with
        | none => Except.error HeaderError.unimplementedField
        | some cartridge_type =>
          match rom_size_of (rom.getD 0x148 0) with
          | none => Except.error HeaderError.unimplementedField
          | some rom_size =>
            match num_rom_banks_of (rom.getD 0x148 0) with
            | none => Except.error HeaderError.unimplementedField
            | some num_rom_banks =>
              match ram_size_of (rom.getD 0x149 0) with
              | none => Except.error HeaderError.unimplementedField
              | some ram_size =>
                match destination_code_of (rom.getD 0x14A 0) with
                | none => Except.error HeaderError.unimplementedField
                | some destination_code =>
                  Except.ok
                    { title := title
                      manufacturer_code := manufacturer_code
                      licensee := Licensee.NoneL
                      cgb := rom.getD 0x143 0 = 0x80 ∨ rom.getD 0x143 0 = 0xC0
                      sgb := rom.getD 0x146 0 = 0x03
                      cartridge_type := cartridge_type
                      rom_size := rom_size
                      num_rom_banks := num_rom_banks
                      ram_size := ram_size
                      destination_code := destination_code
                      version_number := rom.getD 0x14C 0 }

/-- An all-zero 32 KiB cartridge image covering 0x0000–0x7FFF. -/
def romZero : List Nat := List.replicate 0x8000 0

/-- Power-on memory over the 32 KiB zero image. -/
def memZero : Memory := Memory.new romZero

/-- C1.  The claim says `set_r16(P, v); get_r16(P) == v` with the halves
holding `v >> 8` and `v & 0xFF`.  The constituent halves are indeed set to the
high/low split, but the getters combine the halves with `&` instead of `|`
(src/cpu/registers.rs get_bc/get_de/get_hl), so the read-back of 0x0102 via BC
is 0, not 0x0102 — the round trip fails. -/
theorem c1_set_r16_get_r16_divergence :
    (Registers.new.set_r16 R16.BC 0x0102).b = 0x01
  ∧ (Registers.new.set_r16 R16.BC 0x0102).c = 0x02
  ∧ (Registers.new.set_r16 R16.BC 0x0102).get_r16 R16.BC = 0
  ∧ (0 : Nat) ≠ 0x0102 := by decide

/-- C2.  The claim says execute never fails, in particular HALT with IME not
Set completes with a defined result.  But the HALT arm of Cpu::execute runs
`todo!()` (a panic) whenever the IME state is not SET — e.g. at power-on,
where it is UNSET. -/
theorem c2_halt_ime_unset_panics :
    Cpu.new.ime_state = ImeState.UNSET
  ∧ Cpu.new.execute Instruction.HALT memZero = none := ⟨rfl, rfl⟩

/-- C3.  The claim says every address 0x0000–0xFFFF reads/writes without
error, with unimplemented I/O peripherals returning a stub value.  But
Memory::read_io panics (`todo!()`) on the sound range 0xFF10–0xFF3F and on
0xFF01, even with a full 0x8000-byte ROM backing store. -/
theorem c3_unimplemented_io_read_panics :
    memZero.read 0xFF10 = none
  ∧ memZero.read 0xFF01 = none
  ∧ memZero.rom.length = 0x8000 := by
  refine ⟨rfl, rfl, ?_⟩
  have h : memZero.rom = List.replicate 0x8000 0 := rfl
  rw [h, List.length_replicate]

/-- C4 counterexample.  The claim says that after EI and one further
instruction the IME state is PendingInstructionCompletion, becoming Set only
after a second.  Running EI then NOP from power-on leaves IME already SET:
the end-of-instruction epilogue runs at the end of EI itself, so EI ends in
PENDING_INSTRUCTION_COMPLETION and the first following instruction completes
the transition to SET. -/
theorem c4_ime_set_after_first_following_instruction :
    (((Cpu.new.execute Instruction.EI memZero).bind fun r =>
        r.1.execute Instruction.NOP r.2.1).map fun r => r.1.ime_state)
      = some ImeState.SET
  ∧ ImeState.SET ≠ ImeState.PENDING_INSTRUCTION_COMPLETION := ⟨rfl, by decide⟩

/-- C4 amended.  After executing EI the IME state is already
PendingInstructionCompletion (EI sets PendingNewInstruction and EI's own
end-of-instruction epilogue advances it), and it becomes Set when the first
further instruction that reaches the epilogue (e.g. NOP) completes. -/
theorem c4_ei_ime_delay_amended (c : Cpu) (m : Memory) :
    c.execute Instruction.EI m
      = some ({ c with ime_state := ImeState.PENDING_INSTRUCTION_COMPLETION }, m, 4)
  ∧ ∀ (c1 : Cpu) (m1 : Memory),
      c1.ime_state = ImeState.PENDING_INSTRUCTION_COMPLETION →
      c1.execute Instruction.NOP m1 = some ({ c1 with ime_state := ImeState.SET }, m1, 1) := by
  constructor
  · cases hc : c.ime_state <;>
      simp [Cpu.execute, Cpu.execute_inner, Cpu.set_ime, ime_epilogue, hc, armC]
  · intro c1 m1 h
    simp [Cpu.execute, Cpu.execute_inner, armC, ime_epilogue, h]

/-- C4 witness: the amended statement instantiated at power-on with NOP. -/
theorem c4_ei_ime_delay_amended_witness :
    Cpu.new.execute Instruction.EI memZero
      = some ({ Cpu.new with ime_state := ImeState.PENDING_INSTRUCTION_COMPLETION }, memZero, 4)
  ∧ ({ Cpu.new with ime_state := ImeState.PENDING_INSTRUCTION_COMPLETION } : Cpu).execute
        Instruction.NOP memZero
      = some ({ Cpu.new with ime_state := ImeState.SET }, memZero, 1) :=
  ⟨(c4_ei_ime_delay_amended Cpu.new memZero).1,
   (c4_ei_ime_delay_amended Cpu.new memZero).2 _ memZero rfl⟩

/-- A power-on CPU whose accumulator holds 0x80. -/
def cpuA80 : Cpu := { Cpu.new with registers := { Registers.new with a := 0x80 } }

/-- C5.  The claim says BIT sets the zero flag exactly when the tested bit is
zero (BIT 7, A with A = 0x00 gives zero = true, with A = 0x80 gives zero =
false).  Cpu::bit assigns `zero = bit != 0`, the opposite polarity: with
A = 0x00 the zero flag comes out false and with A = 0x80 it comes out true.
Half-carry is forced true, subtract cleared and carry untouched as claimed. -/
theorem c5_bit_zero_flag_inverted :
    ((Cpu.new.execute (Instruction.BIT_U3_R8 U3.Seven R8.A) memZero).map
        fun r => (r.1.registers.f.zero, r.1.registers.f.subtract,
                  r.1.registers.f.half_carry, r.1.registers.f.carry, r.2.2))
      = some (false, false, true, false, 8)
  ∧ ((cpuA80.execute (Instruction.BIT_U3_R8 U3.Seven R8.A) memZero).map
        fun r => r.1.registers.f.zero) = some true
  ∧ (false : Bool) ≠ true := ⟨rfl, rfl, by decide⟩

/-- CPU with PC = 0x1234 and SP = 0xFFFE for the CALL experiment. -/
def cpuC6 : Cpu := { Cpu.new with registers := { Registers.new with pc := 0x1234, sp := 0xFFFE } }

/-- Work-RAM contents for the RET experiment: bytes 0x34, 0x12 at offset 0
(i.e. addresses 0xC000/0xC001, where PC points) and 0x78, 0x56 at offset
0x1000 (i.e. addresses 0xD000/0xD001, where SP points). -/
def workBytes : Nat → Nat := fun i =>
  if i = 0 then 0x34 else if i = 1 then 0x12
  else if i = 0x1000 then 0x78 else if i = 0x1001 then 0x56 else 0

/-- Memory loaded with `workBytes`. -/
def memC6 : Memory := { memZero with work_ram := workBytes }

/-- CPU with PC = 0xC000 and SP = 0xD000 for the RET experiment. -/
def cpuRet : Cpu := { Cpu.new with registers := { Registers.new with pc := 0xC000, sp := 0xD000 } }

/-- C6.  The claim says CALL pushes PC as high byte then low byte with
pre-decremented SP, and RET pops the mirror order from SP.  With PC = 0x1234,
SP = 0xFFFE, Cpu::call stores `pc & 0xF` = 0x04 at 0xFFFD and
`(pc >> 4) as u8` = 0x23 at 0xFFFC instead of 0x12 and 0x34; and Cpu::ret
reads its two bytes at PC (not at SP), leaves SP untouched, and rebuilds PC
through the nibble-mangling Registers::set_pc, yielding 0x34 instead of the
pushed word 0x5678 waiting at SP. -/
theorem c6_call_ret_stack_divergence :
    ((cpuC6.execute (Instruction.CALL_N16 0x0150) memZero).bind fun r =>
        (r.2.1.read 0xFFFD).bind fun hi =>
        (r.2.1.read 0xFFFC).map fun lo =>
          (hi, lo, r.1.registers.pc, r.1.registers.sp))
      = some (0x04, 0x23, 0x0150, 0xFFFC)
  ∧ ((0x04 : Nat), (0x23 : Nat)) ≠ (0x12, 0x34)
  ∧ ((cpuRet.execute Instruction.RET memC6).map fun r =>
        (r.1.registers.pc, r.1.registers.sp)) = some (0x34, 0xD000)
  ∧ ((0x34 : Nat), (0xD000 : Nat)) ≠ (0x5678, 0xD002) :=
  ⟨rfl, by decide, rfl, by decide⟩

/-- C7.  The claim says the divider byte read back through 0xFF04 advances by
one per 256 accumulated cycles.  Timers::tick evaluates
`self.divider.wrapping_add(1)` and discards the result, so after tick(256)
the divider still reads 0 (the accumulator was drained but the visible byte
never moves). -/
theorem c7_divider_stuck_at_zero :
    (Timers.new.tick 256).1.get_divider = 0
  ∧ (Timers.new.tick 256).1.internal_divider = 0
  ∧ (0 : Nat) ≠ 1 := by
  have h : div_loop (0 + 256) = 0 := by simp [div_loop]
  refine ⟨?_, ?_, by decide⟩ <;>
    simp [Timers.tick, Timers.new, Timers.get_divider, h]

/-- Timers state with a non-zero visible divider (5) and a non-zero internal
accumulator (7). -/
def timers57 : Timers :=
  { divider := 5, internal_divider := 7, timer_counter := 3
    timer_modulo := 9, internal_timer := 11, timer_control := 13 }

/-- Memory whose timers are `timers57`. -/
def mem57 : Memory := { memZero with timers := timers57 }

/-- C8 counterexample.  The claim says a write to 0xFF04 resets only the
internal sub-cycle accumulator, leaving the visible divider byte unchanged.
Timers::reset_div does the reverse: after writing 0x42 to 0xFF04 the visible
divider byte drops from 5 to 0 while the internal accumulator stays at 7. -/
theorem c8_reset_div_resets_visible_divider :
    ((mem57.write 0xFF04 0x42).map fun m => (m.timers.divider, m.timers.internal_divider))
      = some (0, 7)
  ∧ ((0 : Nat), (7 : Nat)) ≠ (5, 0) := ⟨rfl, by decide⟩

/-- C8 amended.  Writing any byte to 0xFF04 resets only the visible divider
byte to zero; the internal sub-cycle accumulator and the timer counter,
modulo and control registers (and the rest of memory) are unchanged. -/
theorem c8_div_write_amended (m : Memory) (b : Nat) :
    m.write 0xFF04 b = some { m with timers := { m.timers with divider := 0 } } := by rfl

/-- A 0x150-byte image whose checksum over 0x134–0x14C (25 zero bytes, giving
0xFFE7, truncated to 0xE7) matches the stored byte at 0x14D, with
cartridge-type, ROM-size, RAM-size and destination bytes all 0x00. -/
def goodRom : List Nat := (List.replicate 0x150 0).set 0x14D 0xE7

/-- A 0x150-byte all-zero image: its stored checksum byte 0 does not match
the computed 0xE7. -/
def badRom : List Nat := List.replicate 0x150 0

set_option maxRecDepth 10000 in
/-- C9.  A checksum mismatch is fatally rejected as claimed; but on the image
with a matching checksum and cartridge-type 0x00 parsing does not succeed
with ROMOnly: header::new fills the 16-byte title buffer from the 15-byte
slice 0x134..0x143 and copy_from_slice panics on the length mismatch before
any field is decoded. -/
theorem c9_header_parse_divergence :
    header.new badRom = Except.error HeaderError.checksumFailed
  ∧ goodRom.getD 0x14D 0 = wrap8 (checksum goodRom)
  ∧ header.new goodRom = Except.error HeaderError.copyLengthMismatch
  ∧ ∀ hd : header, header.new goodRom ≠ Except.ok hd := by
  refine ⟨rfl, rfl, rfl, ?_⟩
  intro hd h
  rw [show header.new goodRom = Except.error HeaderError.copyLengthMismatch from rfl] at h
  exact Except.noConfusion h

/-- C10.  For every condition, target and state: when the condition is
satisfied, CALL_CC_N16 performs the call and returns 12 cycles (via the
arm's early `return`, so no IME epilogue); when the condition fails it
returns 24 cycles with registers, SP, PC and memory unchanged — only the IME
end-of-instruction transition is applied. -/
theorem c10_call_cc_cycle_counts (condition : Condition) (n16 : Nat) (cpu : Cpu) (m : Memory) :
    (cpu.check_condition condition = true →
      cpu.execute (Instruction.CALL_CC_N16 condition n16) m
        = (cpu.call m n16).map fun p => (p.1, p.2, 12))
  ∧ (cpu.check_condition condition = false →
      cpu.execute (Instruction.CALL_CC_N16 condition n16) m
        = some ({ cpu with ime_state := ime_epilogue cpu.ime_state }, m, 24)) := by
  constructor
  · intro h
    simp only [Cpu.execute, Cpu.execute_inner, h, if_true]
    cases cpu.call m n16 <;> simp
  · intro h
    simp [Cpu.execute, Cpu.execute_inner, h, armC]

/-- C10 witness: both branches instantiated at power-on (zero flag clear, so
NZ is satisfied and Z fails) with target 0x0150. -/
theorem c10_call_cc_cycle_counts_witness :
    Cpu.new.check_condition Condition.NZ = true
  ∧ Cpu.new.execute (Instruction.CALL_CC_N16 Condition.NZ 0x0150) memZero
      = ((Cpu.new.call memZero 0x0150).map fun p => (p.1, p.2, 12))
  ∧ Cpu.new.check_condition Condition.Z = false
  ∧ Cpu.new.execute (Instruction.CALL_CC_N16 Condition.Z 0x0150) memZero
      = some ({ Cpu.new with ime_state := ime_epilogue Cpu.new.ime_state }, memZero, 24) :=
  ⟨rfl, (c10_call_cc_cycle_counts Condition.NZ 0x0150 Cpu.new memZero).1 rfl,
   rfl, (c10_call_cc_cycle_counts Condition.Z 0x0150 Cpu.new memZero).2 rfl⟩
